import Mathlib

/-!
Verification development for the repository consisting of the notebook
`notebook/agentchat_function_call.ipynb` and its documentation-deployment
workflow.  The definitions below shallowly embed the code the notebook and
the workflow file contain; ambient state of the source (the IPython engine,
the framework's `execute_code_blocks` method, the environment/file loader,
the CI runner's file system) is passed as explicit function arguments.
-/

namespace Autogen

/-! ### Notebook: the two example functions -/

/-- Fields of the object returned by `ipython.run_cell(cell)` that the
notebook reads: the string `str(result.result)`, and the two optional error
objects, each kept as the string its f-string interpolation produces. -/
structure RunResult where
  resultRepr : String
  error_before_exec : Option String
  error_in_exec : Option String
deriving DecidableEq

/-- Embedding of `exec_python` from the notebook.  In the source
`get_ipython()` fetches the ambient engine; it is the explicit `ipython`
argument here. -/
def exec_python (ipython : String → RunResult) (cell : String) : String :=
  let result := ipython cell
  let log := result.resultRepr
  let log := match result.error_before_exec with
    | some e => log ++ "\n" ++ e
    | none => log
  match result.error_in_exec with
    | some e => log ++ "\n" ++ e
    | none => log

/-- Embedding of `exec_sh` from the notebook; the framework method
`user_proxy.execute_code_blocks` is the explicit first argument. -/
def exec_sh (execute_code_blocks : List (String × String) → String)
    (script : String) : String :=
  execute_code_blocks [("sh", script)]

/-! ### Notebook: the termination predicate -/

/-- Python whitespace as stripped by `str.rstrip()` with no argument. -/
def pyIsSpace (c : Char) : Bool :=
  c == ' ' || c == '\t' || c == '\n' || c == '\r' || c == '\x0b' || c == '\x0c'

/-- Python `s.rstrip()`: drop trailing whitespace characters. -/
def pyRstrip (s : String) : String :=
  ⟨(s.data.reverse.dropWhile pyIsSpace).reverse⟩

/-- Python `s.endswith(t)`. -/
def pyEndswith (s t : String) : Bool :=
  t.data.isSuffixOf s.data

/-- Python values that flow through the notebook's termination lambda: a
string (the message content) or a bool (the `endswith` result). -/
inductive PyVal where
  | str : String → PyVal
  | bool : Bool → PyVal
deriving DecidableEq

/-- Python truthiness of the values above. -/
def PyVal.truthy : PyVal → Bool
  | .str s => s != ""
  | .bool b => b

/-- Python `and`: the left operand when it is falsy, otherwise the right. -/
def pyAnd (a b : PyVal) : PyVal := if a.truthy then b else a

/-- A chat message as the termination lambda sees it: only the optional
"content" entry matters (`none` models a missing key). -/
structure Message where
  content : Option String
deriving DecidableEq

/-- Embedding of `x.get("content", "")`. -/
def Message.getContent (x : Message) : String := x.content.getD ""

/-- Embedding of the lambda passed as `is_termination_msg`:
`lambda x: x.get("content", "") and
x.get("content", "").rstrip().endswith("TERMINATE")`. -/
def is_termination_msg (x : Message) : PyVal :=
  pyAnd (.str x.getContent)
    (.bool (pyEndswith (pyRstrip x.getContent) "TERMINATE"))

/-! ### Notebook: the user proxy configuration and the auto-reply cap -/

/-- The keyword arguments the notebook passes to `autogen.UserProxyAgent`
(besides the termination lambda embedded above). -/
structure UserProxyConfig where
  agentName : String
  human_input_mode : String
  max_consecutive_auto_reply : Nat
  work_dir : String
  use_docker : Bool
deriving DecidableEq

/-- The `user_proxy` construction from the notebook. -/
def user_proxy : UserProxyConfig :=
  { agentName := "user_proxy",
    human_input_mode := "NEVER",
    max_consecutive_auto_reply := 10,
    work_dir := "coding",
    use_docker := false }

/-- Modelled from the spec: the agent framework's cap on consecutive
automatic replies ("a bounded exchange (capped consecutive auto-replies)").
The `ConversableAgent` reply loop lives in the imported `autogen` library and
is not part of this repository.  The proxy issues an automatic reply only
while its consecutive-auto-reply counter is below the cap; `autoReplies cap
n` is the counter after `n` reply opportunities with no human input. -/
def autoReplies (cap : Nat) : Nat → Nat
  | 0 => 0
  | n + 1 => if autoReplies cap n < cap then autoReplies cap n + 1 else autoReplies cap n

/-! ### Notebook: tool registration and dispatch -/

/-- The two plain functions the notebook defines, as registration targets. -/
inductive NotebookFn where
  | execPython
  | execSh
deriving DecidableEq

/-- Whether a function's body calls `user_proxy.execute_code_blocks`: the
body of `exec_sh` does, the body of `exec_python` calls `ipython.run_cell`
instead. -/
def callsExecuteCodeBlocks : NotebookFn → Bool
  | .execPython => false
  | .execSh => true

/-- One tool signature as handed to the dispatch mechanism. -/
structure ToolRegistration where
  toolName : String
  description : String
  callable : NotebookFn
deriving DecidableEq

/-- The tool registrations the notebook performs: the decorator pair
`@user_proxy.register_for_execution()` /
`@chatbot.register_for_llm(name="python", ...)` registers `exec_python`
under "python", and the `autogen.agentchat.register_function` call passes
`exec_python` as its first (positional) argument together with `name="sh"`. -/
def registeredTools : List ToolRegistration :=
  [ { toolName := "python",
      description := "run cell in ipython and return the execution result.",
      callable := .execPython },
    { toolName := "sh",
      description := "run a shell script and return the execution result.",
      callable := .execPython } ]

/-- The callable the dispatch mechanism binds to a tool name. -/
def toolFor (n : String) : Option NotebookFn :=
  (registeredTools.find? (fun t => t.toolName == n)).map (fun t => t.callable)

/-- Dispatching a model-issued tool call: look up the name and run the bound
function on the argument string. -/
def dispatchTool (ipython : String → RunResult)
    (execute_code_blocks : List (String × String) → String)
    (n : String) (arg : String) : Option String :=
  (toolFor n).map (fun f => match f with
    | .execPython => exec_python ipython arg
    | .execSh => exec_sh execute_code_blocks arg)

/-! ### Notebook: configuration loading -/

/-- A model connection configuration entry (the fields the notebook's own
documentation shows; only `model` is inspected). -/
structure ModelConfig where
  model : String
  api_key : String
  base_url : Option String
deriving DecidableEq

/-- Modelled from the spec: `autogen.config_list_from_json` is library code
not in this repository.  Per the notebook's description, it loads a JSON
list from the environment variable or json file named by its first argument
and "Only the models with matching names are kept in the list based on the
filter condition".  `load` stands for the environment/file lookup plus JSON
decoding. -/
def config_list_from_json (load : String → List ModelConfig)
    (env_or_file : String) (model_filter : List String) : List ModelConfig :=
  (load env_or_file).filter (fun c => model_filter.contains c.model)

/-- The notebook's call:
`config_list_from_json("OAI_CONFIG_LIST", filter_dict=...)`. -/
def config_list (load : String → List ModelConfig) : List ModelConfig :=
  config_list_from_json load "OAI_CONFIG_LIST"
    ["gpt-4", "gpt-3.5-turbo", "gpt-3.5-turbo-16k"]

/-! ### Workflow: the documentation-deployment workflow definition -/

/-- The trigger kinds appearing in the workflow's `on:` block. -/
inductive GithubEvent where
  | pull_request
  | push
  | workflow_dispatch
  | merge_group
deriving DecidableEq

/-- The value of `github.event_name` for each trigger kind. -/
def GithubEvent.eventName : GithubEvent → String
  | .pull_request => "pull_request"
  | .push => "push"
  | .workflow_dispatch => "workflow_dispatch"
  | .merge_group => "merge_group"

/-- The `on:` block of the workflow: its four trigger kinds, in file order. -/
def onTriggers : List GithubEvent :=
  [.pull_request, .push, .workflow_dispatch, .merge_group]

/-- The conditions occurring in the workflow: job-level
`if: github.event_name != <e>` checks, and the shell `[ -e <file> ]` tests
inside run scripts. -/
inductive WfCond where
  | eventNe : String → WfCond
  | fileExists : String → WfCond
deriving DecidableEq

/-- Whether a condition tests the triggering event type. -/
def testsEventName : WfCond → Bool
  | .eventNe _ => true
  | .fileExists _ => false

/-- Evaluate a condition given the trigger event and the runner's file
system. -/
def WfCond.eval (e : GithubEvent) (fileEx : String → Bool) : WfCond → Bool
  | .eventNe s => e.eventName != s
  | .fileExists p => fileEx p

/-- One line of a run script: a plain command, or the
`if [ -e a ]; then A; elif [ -e b ]; then B; else C; fi` construct that the
"Test Build" and "Build website" steps use. -/
inductive ShellCmd where
  | cmd : String → ShellCmd
  | branch : WfCond → List String → WfCond → List String → List String → ShellCmd
deriving DecidableEq

/-- Conditions tested by one script line. -/
def ShellCmd.conds : ShellCmd → List WfCond
  | .cmd _ => []
  | .branch c1 _ c2 _ _ => [c1, c2]

/-- One workflow step: its optional `name:`, optional `uses:`, and the lines
of its `run:` script. -/
structure WfStep where
  stepName : Option String
  uses : Option String
  run : List ShellCmd
deriving DecidableEq

/-- Conditions tested anywhere inside a step's run script. -/
def WfStep.conds (s : WfStep) : List WfCond :=
  (s.run.map ShellCmd.conds).flatten

def checkoutStep : WfStep := ⟨none, some "actions/checkout@v3", []⟩

def setupNodeStep : WfStep := ⟨none, some "actions/setup-node@v4", []⟩

def setupPythonStep : WfStep :=
  ⟨some "setup python", some "actions/setup-python@v4", []⟩

def pydocInstallStep : WfStep :=
  ⟨some "pydoc-markdown install", none,
   [.cmd "python -m pip install --upgrade pip",
    .cmd "pip install pydoc-markdown"]⟩

def pydocRunStep : WfStep :=
  ⟨some "pydoc-markdown run", none, [.cmd "pydoc-markdown"]⟩

def quartoInstallStep : WfStep :=
  ⟨some "quarto install", none,
   [.cmd "wget -q https://github.com/quarto-dev/quarto-cli/releases/download/v1.4.549/quarto-1.4.549-linux-amd64.tar.gz",
    .cmd "tar -xzf quarto-1.4.549-linux-amd64.tar.gz",
    .cmd "echo \"$(pwd)/quarto-1.4.549/bin/\" >> $GITHUB_PATH"]⟩

def quartoRunStep : WfStep :=
  ⟨some "quarto run", none, [.cmd "quarto render ."]⟩

/-- The lockfile-dispatching build script shared (verbatim in the source) by
the "Test Build" and "Build website" steps. -/
def buildScript : List ShellCmd :=
  [.branch (.fileExists "yarn.lock")
      ["yarn install --frozen-lockfile --ignore-engines", "yarn build"]
    (.fileExists "package-lock.json")
      ["npm ci", "npm run build"]
      ["npm i --legacy-peer-deps", "npm run build"]]

def testBuildStep : WfStep := ⟨some "Test Build", none, buildScript⟩

def buildWebsiteStep : WfStep := ⟨some "Build website", none, buildScript⟩

def deployStep : WfStep :=
  ⟨some "Deploy to GitHub Pages", some "peaceiris/actions-gh-pages@v3", []⟩

/-- One job of the workflow: its id, its optional `if:` condition, and its
step sequence. -/
structure WfJob where
  jobName : String
  cond : Option WfCond
  steps : List WfStep
deriving DecidableEq

/-- The `checks` job (`if: github.event_name != 'push'`). -/
def checksJob : WfJob :=
  ⟨"checks", some (.eventNe "push"),
   [checkoutStep, setupNodeStep, setupPythonStep, pydocInstallStep,
    pydocRunStep, quartoInstallStep, quartoRunStep, testBuildStep]⟩

/-- The `gh-release` job (`if: github.event_name != 'pull_request'`). -/
def ghReleaseJob : WfJob :=
  ⟨"gh-release", some (.eventNe "pull_request"),
   [checkoutStep, setupNodeStep, setupPythonStep, pydocInstallStep,
    pydocRunStep, quartoInstallStep, quartoRunStep, buildWebsiteStep,
    deployStep]⟩

def workflowJobs : List WfJob := [checksJob, ghReleaseJob]

/-- All conditions of the workflow definition: the job-level `if:`
conditions followed by every condition tested inside a step's run script. -/
def allWorkflowConditions : List WfCond :=
  (workflowJobs.map (fun j => j.cond.toList)).flatten ++
    (workflowJobs.map (fun j => (j.steps.map WfStep.conds).flatten)).flatten

/-- The ids of the jobs a trigger event causes to run. -/
def jobsRunFor (e : GithubEvent) (fileEx : String → Bool) : List String :=
  (workflowJobs.filter (fun j => match j.cond with
    | some c => c.eval e fileEx
    | none => true)).map (fun j => j.jobName)

/-- Modelled from the spec: the CI runner's step semantics are not part of
this repository.  Per the spec, "the CI steps fail and halt the job if any
invoked external tool exits non-zero": steps run in order and the job stops
at the first step whose exit code is non-zero.  The result lists each
executed step with its exit code. -/
def runSteps (exitOf : WfStep → Nat) : List WfStep → List (WfStep × Nat)
  | [] => []
  | s :: rest =>
      if exitOf s = 0 then (s, 0) :: runSteps exitOf rest else [(s, exitOf s)]

/-! ### Theorems for the claims -/

/-- C1, counterexample: the callable the dispatch mechanism binds to the
name "sh" is `exec_python`, not the script-executing function `exec_sh` —
the `register_function` call passes `exec_python`. -/
theorem c1_sh_is_not_exec_sh :
    toolFor "sh" = some NotebookFn.execPython ∧
      toolFor "sh" ≠ some NotebookFn.execSh := by
  constructor
  · rfl
  · decide

/-- C1 (amended): the notebook registers exactly two tool signatures — one
named "python" with description "run cell in ipython and return the
execution result." and one named "sh" with description "run a shell script
and return the execution result." — and the callable bound to each of the
two names, in particular to "sh", is `exec_python`. -/
theorem c1_two_registered_tools :
    registeredTools.length = 2 ∧
      registeredTools.map (fun t => (t.toolName, t.description)) =
        [("python", "run cell in ipython and return the execution result."),
         ("sh", "run a shell script and return the execution result.")] ∧
      toolFor "python" = some NotebookFn.execPython ∧
      toolFor "sh" = some NotebookFn.execPython :=
  ⟨rfl, rfl, rfl, rfl⟩

/-- C2: the log `exec_python` returns begins with `str(result.result)`; a
present `error_before_exec` is appended on a new line, then a present
`error_in_exec` on a new line; with both error fields `None` the log is
exactly `str(result.result)`. -/
theorem c2_exec_python_log (ipython : String → RunResult) (cell : String) :
    (∃ rest : List Char,
        (exec_python ipython cell).data = (ipython cell).resultRepr.data ++ rest) ∧
    ((ipython cell).error_before_exec = none → (ipython cell).error_in_exec = none →
        exec_python ipython cell = (ipython cell).resultRepr) ∧
    (∀ e, (ipython cell).error_before_exec = some e →
        (ipython cell).error_in_exec = none →
        exec_python ipython cell = (ipython cell).resultRepr ++ "\n" ++ e) ∧
    (∀ e, (ipython cell).error_before_exec = none →
        (ipython cell).error_in_exec = some e →
        exec_python ipython cell = (ipython cell).resultRepr ++ "\n" ++ e) ∧
    (∀ e₁ e₂, (ipython cell).error_before_exec = some e₁ →
        (ipython cell).error_in_exec = some e₂ →
        exec_python ipython cell =
          (ipython cell).resultRepr ++ "\n" ++ e₁ ++ "\n" ++ e₂) := by
  cases h1 : (ipython cell).error_before_exec <;>
    cases h2 : (ipython cell).error_in_exec <;>
      refine ⟨?_, ?_, ?_, ?_, ?_⟩ <;>
        simp_all [exec_python]

/-- C2 witness: the theorem applied to a concrete engine and cell. -/
theorem c2_exec_python_log_witness :
    exec_python (fun _ => ⟨"None", none, none⟩) "x = 1" = "None" :=
  (c2_exec_python_log (fun _ => ⟨"None", none, none⟩) "x = 1").2.1 rfl rfl

/-- C3: the user proxy is constructed with `max_consecutive_auto_reply=10`,
and under the modelled cap semantics the number of consecutive automatic
replies never exceeds 10 in a run with no human input. -/
theorem c3_auto_reply_cap :
    user_proxy.max_consecutive_auto_reply = 10 ∧
      ∀ n, autoReplies user_proxy.max_consecutive_auto_reply n ≤ 10 := by
  refine ⟨rfl, fun n => ?_⟩
  show autoReplies 10 n ≤ 10
  induction n with
  | zero => simp [autoReplies]
  | succ n ih =>
      rw [autoReplies]
      split
      · omega
      · exact ih

/-- C4, counterexample: the "Test Build" step's run script contains a
branch on `[ -e yarn.lock ]`, a condition that does not test the triggering
event type, so the workflow has branching beyond trigger-type checks. -/
theorem c4_step_branch_counterexample :
    WfCond.fileExists "yarn.lock" ∈ testBuildStep.conds ∧
      testsEventName (WfCond.fileExists "yarn.lock") = false ∧
      WfCond.fileExists "yarn.lock" ∈ allWorkflowConditions := by
  refine ⟨?_, rfl, ?_⟩ <;> decide

/-- C4 (amended): every job-level `if:` condition of the workflow tests
`github.event_name`, but the "Test Build" and "Build website" steps each
contain a shell if/elif/else branch on lockfile existence; no other step
contains any branch. -/
theorem c4_workflow_conditions :
    workflowJobs.map (fun j => j.cond) =
      [some (WfCond.eventNe "push"), some (WfCond.eventNe "pull_request")] ∧
    ((workflowJobs.map (fun j => j.cond.toList)).flatten.all testsEventName
      = true) ∧
    testBuildStep.conds =
      [WfCond.fileExists "yarn.lock", WfCond.fileExists "package-lock.json"] ∧
    buildWebsiteStep.conds =
      [WfCond.fileExists "yarn.lock", WfCond.fileExists "package-lock.json"] ∧
    (workflowJobs.all (fun j => j.steps.all (fun s =>
        s.conds == [] || (s == testBuildStep || s == buildWebsiteStep)))
      = true) := by
  refine ⟨rfl, rfl, rfl, rfl, ?_⟩
  decide

/-- C5: the workflow's trigger surface is exactly the four kinds
pull_request, push, workflow_dispatch and merge_group, and the jobs (each a
fixed step sequence) run for each trigger are determined by the trigger
kind alone, independent of the runner's file system. -/
theorem c5_trigger_surface :
    onTriggers = [GithubEvent.pull_request, GithubEvent.push,
        GithubEvent.workflow_dispatch, GithubEvent.merge_group] ∧
    onTriggers.Nodup ∧
    (∀ fileEx,
      jobsRunFor GithubEvent.pull_request fileEx = ["checks"] ∧
      jobsRunFor GithubEvent.push fileEx = ["gh-release"] ∧
      jobsRunFor GithubEvent.workflow_dispatch fileEx = ["checks", "gh-release"] ∧
      jobsRunFor GithubEvent.merge_group fileEx = ["checks", "gh-release"]) :=
  ⟨rfl, by decide, fun fileEx => ⟨rfl, rfl, rfl, rfl⟩⟩

/-- C6: each of the two example functions, given its ambient engine, is a
unary function from a source-code string to a result string; in particular
`exec_sh` maps a script string to the engine's output string on the single
"sh" code block. -/
theorem c6_example_function_signatures :
    (∀ ipython : String → RunResult,
        ∃ f : String → String, exec_python ipython = f) ∧
    (∀ execute_code_blocks : List (String × String) → String,
        ∃ g : String → String, exec_sh execute_code_blocks = g) ∧
    (∀ execute_code_blocks (script : String),
        exec_sh execute_code_blocks script =
          execute_code_blocks [("sh", script)]) :=
  ⟨fun ipython => ⟨exec_python ipython, rfl⟩,
   fun execute_code_blocks => ⟨exec_sh execute_code_blocks, rfl⟩,
   fun _ _ => rfl⟩

/-- C7: under the modelled runner semantics, when every step before `s`
exits zero and `s` exits non-zero, the job executes exactly the steps up to
and including `s` — the failing step halts the job and no later step runs. -/
theorem c7_failing_step_halts (exitOf : WfStep → Nat)
    (pre post : List WfStep) (s : WfStep)
    (h0 : ∀ t ∈ pre, exitOf t = 0) (hs : exitOf s ≠ 0) :
    runSteps exitOf (pre ++ s :: post) =
      pre.map (fun t => (t, 0)) ++ [(s, exitOf s)] := by
  induction pre with
  | nil => simp [runSteps, hs]
  | cons t rest ih =>
      have ht : exitOf t = 0 := h0 t (by simp)
      have ih' := ih (fun u hu => h0 u (by simp [hu]))
      simp [runSteps, ht, ih']

/-- C7 witness: the theorem applied to the `checks` job with an exit
function under which only the "quarto run" step fails: the job halts there
and the "Test Build" step never runs. -/
theorem c7_failing_step_halts_witness :
    runSteps (fun s => if s.stepName == some "quarto run" then 1 else 0)
        checksJob.steps =
      [(checkoutStep, 0), (setupNodeStep, 0), (setupPythonStep, 0),
       (pydocInstallStep, 0), (pydocRunStep, 0), (quartoInstallStep, 0),
       (quartoRunStep, 1)] := by
  have h := c7_failing_step_halts
    (fun s => if s.stepName == some "quarto run" then 1 else 0)
    [checkoutStep, setupNodeStep, setupPythonStep, pydocInstallStep,
     pydocRunStep, quartoInstallStep]
    [testBuildStep] quartoRunStep (by decide) (by decide)
  simpa using h

/-- C8: the configuration is loaded from the environment variable or file
named "OAI_CONFIG_LIST", and an entry of the loaded list is kept exactly
when its model is one of "gpt-4", "gpt-3.5-turbo", "gpt-3.5-turbo-16k". -/
theorem c8_config_list_filter (load : String → List ModelConfig)
    (c : ModelConfig) :
    c ∈ config_list load ↔
      c ∈ load "OAI_CONFIG_LIST" ∧
        (c.model = "gpt-4" ∨ c.model = "gpt-3.5-turbo" ∨
          c.model = "gpt-3.5-turbo-16k") := by
  simp [config_list, config_list_from_json, List.mem_filter]

/-- C9: the termination predicate is truthy exactly when the message's
content is non-empty and its right-stripped text ends with "TERMINATE"; a
message with missing or empty content is never a termination message; and
on non-empty non-terminating content the predicate returns the boolean
result of the `endswith` test rather than the content string. -/
theorem c9_is_termination_msg (x : Message) :
    ((is_termination_msg x).truthy = true ↔
        x.getContent ≠ "" ∧
          pyEndswith (pyRstrip x.getContent) "TERMINATE" = true) ∧
    (x.content = none ∨ x.content = some "" →
        (is_termination_msg x).truthy = false) ∧
    (x.getContent ≠ "" →
        is_termination_msg x =
          PyVal.bool (pyEndswith (pyRstrip x.getContent) "TERMINATE")) := by
  by_cases hc : x.getContent = ""
  · refine ⟨?_, fun _ => ?_, fun h => absurd hc h⟩ <;>
      simp [is_termination_msg, pyAnd, PyVal.truthy, hc]
  · have hne : (x.getContent != "") = true := by
      simpa using hc
    refine ⟨?_, fun h => ?_, fun _ => ?_⟩
    · simp [is_termination_msg, pyAnd, PyVal.truthy, hne, hc]
    · exfalso
      rcases h with h | h <;> simp [Message.getContent, h] at hc
    · simp [is_termination_msg, pyAnd, PyVal.truthy, hne]

/-- C9 witness: the theorem applied to a concrete non-empty non-terminating
message, on which the predicate returns the boolean False. -/
theorem c9_is_termination_msg_witness :
    is_termination_msg ⟨some "hello"⟩ = PyVal.bool false :=
  ((c9_is_termination_msg ⟨some "hello"⟩).2.2 (by decide)).trans (by decide)

/-- C10: every registered tool's callable is `exec_python` (so `exec_sh` is
never registered); the tool named "sh" dispatches its string argument to
`exec_python`, running it as an IPython cell; and no registered callable's
body invokes `user_proxy.execute_code_blocks`. -/
theorem c10_exec_sh_never_registered :
    (registeredTools.all (fun t => t.callable == NotebookFn.execPython)
      = true) ∧
    (registeredTools.all (fun t => !callsExecuteCodeBlocks t.callable)
      = true) ∧
    (∀ ipython execute_code_blocks (arg : String),
        dispatchTool ipython execute_code_blocks "sh" arg =
          some (exec_python ipython arg)) :=
  ⟨by decide, by decide, fun _ _ _ => rfl⟩

end Autogen
